import Mathlib

/-!
# Verification of the telegramPhotos sync pipeline

Shallow embedding of the core of the `komkovla/telegramPhotos` repository:

* `src/bot/database.py` — the persistent state store (processed-message
  markers, album-id cache keyed by group title, last-known chat titles),
  modelled as association lists with SQLite `INSERT OR IGNORE` /
  `INSERT OR REPLACE` / `DELETE` semantics;
* `src/bot/google_photos.py` — the remote-client retry wrapper
  `_request_with_retry`, modelled as a fuel-bounded loop over an oracle of
  per-attempt outcomes, recording the sleeps performed and the headers sent
  on each attempt;
* `src/bot/media.py` — the media fetch adapter (`download_media`, size
  ceilings, bounded transfer retry, safe filenames);
* `src/bot/handlers.py` — the sync orchestrator `handle_media`, modelled as
  a pure state transformer over the store, parameterised by oracles for the
  fetch and remote-client outcomes and recording a trace of outbound calls.

External effects (the Telegram transfer, the Google Photos HTTP calls) are
oracles supplied as explicit arguments, so every definition is executable.
-/

set_option autoImplicit false

deriving instance DecidableEq for Except

namespace TelegramPhotos

/-- Python `str.strip()`: drop leading and trailing whitespace. Defined on
the character list so that it evaluates inside the kernel. -/
def pyStrip (s : String) : String :=
  String.mk
    (((s.data.dropWhile Char.isWhitespace).reverse.dropWhile
      Char.isWhitespace).reverse)

/-! ## Persistent state store (`src/bot/database.py`)

The three tables of `_SCHEMA`. `processed_messages` has primary key
`(chat_id, message_id)` and is only ever written with `INSERT OR IGNORE`;
`album_cache` and `chat_titles` have single-column primary keys and are
written with `INSERT OR REPLACE` / `DELETE`.
-/

/-- The three tables of the SQLite database, as association lists.
Primary-key uniqueness is maintained by the operations themselves
(`mark_processed` inserts only if absent; the `REPLACE` operations delete
the old row first). -/
structure DB where
  processed : List (Int × Int)
  albumCache : List (String × String)
  chatTitles : List (Int × String)
deriving DecidableEq

/-- The empty database (fresh schema). -/
def DB.empty : DB := ⟨[], [], []⟩

/-- `Database.is_processed`: `SELECT 1 FROM processed_messages WHERE …`. -/
def DB.is_processed (db : DB) (chat_id message_id : Int) : Bool :=
  db.processed.contains (chat_id, message_id)

/-- `Database.mark_processed`: `INSERT OR IGNORE INTO processed_messages …`.
Total (never throws): a duplicate insert is ignored by SQLite, here a
no-op branch. -/
def DB.mark_processed (db : DB) (chat_id message_id : Int) : DB :=
  if db.processed.contains (chat_id, message_id) then db
  else { db with processed := (chat_id, message_id) :: db.processed }

/-- `Database.get_album_id`: `SELECT album_id FROM album_cache WHERE group_title = ?`. -/
def DB.get_album_id (db : DB) (group_title : String) : Option String :=
  (db.albumCache.find? (fun p => p.1 == group_title)).map (fun p => p.2)

/-- `Database.set_album_id`: `INSERT OR REPLACE INTO album_cache …`. -/
def DB.set_album_id (db : DB) (group_title album_id : String) : DB :=
  { db with albumCache :=
      (group_title, album_id) :: db.albumCache.filter (fun p => p.1 != group_title) }

/-- `Database.delete_album_cache`: `DELETE FROM album_cache WHERE group_title = ?`. -/
def DB.delete_album_cache (db : DB) (group_title : String) : DB :=
  { db with albumCache := db.albumCache.filter (fun p => p.1 != group_title) }

/-- `Database.get_chat_title`: `SELECT group_title FROM chat_titles WHERE chat_id = ?`. -/
def DB.get_chat_title (db : DB) (chat_id : Int) : Option String :=
  (db.chatTitles.find? (fun p => p.1 == chat_id)).map (fun p => p.2)

/-- `Database.set_chat_title`: `INSERT OR REPLACE INTO chat_titles …`. -/
def DB.set_chat_title (db : DB) (chat_id : Int) (group_title : String) : DB :=
  { db with chatTitles :=
      (chat_id, group_title) :: db.chatTitles.filter (fun p => p.1 != chat_id) }

/-! ## Remote client retry wrapper (`src/bot/google_photos.py`)

`_request_with_retry` is modelled as a loop over `MAX_RETRIES` attempts.
The outcome of each HTTP attempt (a transport-level `httpx.HTTPError`, or a
response with a status code and body) is an oracle `Nat → AttemptOutcome`;
the access token derived on each attempt is an oracle `Nat → String`
(`_get_access_token` re-runs on every attempt). The model records the
sleeps performed and the headers sent on each attempt.
-/

/-- `MIN_RETRY_DELAY_SEC = 30` (429 requires at least 30s before retry). -/
def MIN_RETRY_DELAY_SEC : Nat := 30

/-- `MAX_RETRIES = 4`. -/
def MAX_RETRIES : Nat := 4

/-- `RETRYABLE_STATUS_CODES = frozenset({429, 500, 502, 503, 504})`. -/
def RETRYABLE_STATUS_CODES : List Nat := [429, 500, 502, 503, 504]

/-- Outcome of one `client.request(...)` call: either a transport-level
`httpx.HTTPError`, or an HTTP response with status code and body text. -/
inductive AttemptOutcome where
  | transport
  | status (code : Nat) (body : String)
deriving DecidableEq

/-- How `_request_with_retry` terminates abnormally:
`transportErr` re-raises the last `httpx.HTTPError`; `gpError` is the
`GooglePhotosError(status_code, body)` built from the last retryable
status; `httpStatusErr` is the `httpx.HTTPStatusError` raised by
`resp.raise_for_status()` on a non-2xx, non-retryable status;
`exhaustedNoAttempt` is `GooglePhotosError("Request failed after retries")`
(reachable only with a zero retry budget). -/
inductive ReqError where
  | transportErr
  | gpError (status : Nat) (body : String)
  | httpStatusErr (code : Nat) (body : String)
  | exhaustedNoAttempt
deriving DecidableEq

/-- An attempt fails retryably when it is a transport failure or its HTTP
status is in `RETRYABLE_STATUS_CODES` (the loop-continuation condition of
`_request_with_retry`). -/
def retryableOutcome : AttemptOutcome → Bool
  | .transport => true
  | .status code _ => RETRYABLE_STATUS_CODES.contains code

/-- `_auth_headers`: `{"Authorization": f"Bearer {access_token}"}`. -/
def authHeaders (access_token : String) : List (String × String) :=
  [("Authorization", "Bearer " ++ access_token)]

/-- Python `dict.update`: keys of `extra` overwrite those of `base`. -/
def mergeHeaders (base extra : List (String × String)) :
    List (String × String) :=
  base.filter (fun p => !(extra.any (fun q => q.1 == p.1))) ++ extra

/-- Lookup of a header value in the final header mapping. -/
def headerValue (hs : List (String × String)) (k : String) : Option String :=
  (hs.find? (fun p => p.1 == k)).map (fun p => p.2)

/-- Result of a `_request_with_retry` run: the returned response (status
code and body) or the raised error, the list of `asyncio.sleep` durations
in order, and the headers sent on each attempt in order. -/
structure RetryResult where
  result : Except ReqError (Nat × String)
  sleeps : List Nat
  headers : List (List (String × String))

/-- The `for attempt in range(MAX_RETRIES)` loop of `_request_with_retry`,
with `remaining` the number of loop iterations left and `i` the current
attempt index. Mirrors the source order: sleep (if not the first attempt),
derive a fresh token, merge caller headers over the auth header, perform
the request; on transport error double the delay (cap 120) and continue;
on a retryable status floor the delay at 30 then double (cap 120) and
continue; otherwise return the response if 2xx, else `raise_for_status`
raises immediately. After the loop, re-raise the last stored error. -/
def retryLoop (outcomes : Nat → AttemptOutcome) (tokens : Nat → String)
    (extra : List (String × String)) :
    Nat → Nat → Nat → Option ReqError → List Nat →
      List (List (String × String)) → RetryResult
  | 0, _, _, lastExc, sleeps, sent =>
    { result := .error (lastExc.getD .exhaustedNoAttempt)
      sleeps := sleeps, headers := sent }
  | remaining + 1, i, delay, _lastExc, sleeps, sent =>
    let sleeps := if 0 < i then sleeps ++ [delay] else sleeps
    let hdrs := mergeHeaders (authHeaders (tokens i)) extra
    let sent := sent ++ [hdrs]
    match outcomes i with
    | .transport =>
        retryLoop outcomes tokens extra remaining (i + 1)
          (min (delay * 2) 120) (some .transportErr) sleeps sent
    | .status code body =>
        if RETRYABLE_STATUS_CODES.contains code then
          retryLoop outcomes tokens extra remaining (i + 1)
            (min (max delay MIN_RETRY_DELAY_SEC * 2) 120)
            (some (.gpError code body)) sleeps sent
        else if 200 ≤ code ∧ code < 300 then
          { result := .ok (code, body), sleeps := sleeps, headers := sent }
        else
          { result := .error (.httpStatusErr code body)
            sleeps := sleeps, headers := sent }

/-- `_request_with_retry(client, method, url, ..., extra_headers)`:
run the attempt loop with the initial delay `MIN_RETRY_DELAY_SEC`. -/
def requestWithRetry (outcomes : Nat → AttemptOutcome)
    (tokens : Nat → String) (extra : List (String × String)) : RetryResult :=
  retryLoop outcomes tokens extra MAX_RETRIES 0 MIN_RETRY_DELAY_SEC none [] []

/-! ## Media fetch adapter (`src/bot/media.py`)

`download_media` and its helpers. The Telegram transfer
(`bot.get_file` + `download_as_bytearray`) is an oracle giving each
attempt's outcome; bytes are modelled as `List Nat`.
-/

/-- `PHOTO_MAX_BYTES = 200 * 1024 * 1024` (200 MB). -/
def PHOTO_MAX_BYTES : Nat := 200 * 1024 * 1024

/-- `VIDEO_MAX_BYTES = 10 * 1024 * 1024 * 1024` (10 GB). -/
def VIDEO_MAX_BYTES : Nat := 10 * 1024 * 1024 * 1024

/-- `MAX_DOWNLOAD_RETRIES = 3`. -/
def MAX_DOWNLOAD_RETRIES : Nat := 3

/-- How a fetch fails: `FileTooLargeError(label, size_bytes, limit_bytes)`,
or the re-raised last transfer exception after exhausting the bounded
transfer retry. -/
inductive FetchErr where
  | tooLarge (label : String) (size_bytes limit_bytes : Nat)
  | transferFailed
deriving DecidableEq

/-- `MediaContent`: raw bytes plus filename and MIME type. -/
structure MediaContent where
  data : List Nat
  filename : String
  mime_type : String
deriving DecidableEq

/-- The Telegram `File` object (only `file_path` is consumed). -/
structure TgFile where
  file_path : Option String
deriving DecidableEq

/-- A Telegram `PhotoSize` (ascending resolutions; the handler uses the
last, largest one). -/
structure PhotoSize where
  file_id : String
  file_size : Option Nat
deriving DecidableEq

/-- A Telegram `Video` attachment. -/
structure Video where
  file_id : String
  file_size : Option Nat
  file_name : Option String
  mime_type : Option String
deriving DecidableEq

/-- A Telegram `VideoNote` attachment. -/
structure VideoNote where
  file_id : String
  file_size : Option Nat
deriving DecidableEq

/-- The media fields of a Telegram `Message` consumed by `download_media`.
Pythonic truthiness: an empty `photo` list means no photo. -/
structure Msg where
  photo : List PhotoSize
  video : Option Video
  video_note : Option VideoNote
deriving DecidableEq

/-- Per-attempt outcome of `bot.get_file(file_id)` +
`download_as_bytearray()`: the file metadata and bytes, or an exception. -/
structure TransferEnv where
  attempt : Nat → Except Unit (TgFile × List Nat)

/-- Python `x or fallback` for an optional string: `None` and `""` are
falsy. -/
def pyStrOr (s : Option String) (fallback : String) : String :=
  match s with
  | some v => if v = "" then fallback else v
  | none => fallback

/-- `_safe_filename(candidate, fallback)`: strip, keep only the final path
segment when directory separators occur (backslashes first normalised to
slashes), fall back when empty. -/
def safeFilename (candidate fallback : String) : String :=
  let c := pyStrip candidate
  if c = "" then fallback
  else
    let c2 :=
      if c.data.contains '/' ∨ c.data.contains '\\' then
        String.mk (((c.data.map
          (fun ch => if ch = '\\' then '/' else ch)).splitOn '/').getLastD [])
      else c
    if c2 = "" then fallback else c2

/-- `_check_file_size(file_size, limit, label)`: `some` error exactly when
a size is declared and *strictly* exceeds the limit. -/
def checkFileSize (file_size : Option Nat) (limit : Nat) (label : String) :
    Option FetchErr :=
  match file_size with
  | some s => if s > limit then some (.tooLarge label s limit) else none
  | none => none

/-- The loop of `_download_with_retry`: at most `remaining` further
attempts, returning the transfer result and the number of attempts made
(the sleep before attempt `n + 1` is `2 * 2 ^ (n - 1)` seconds and is
immaterial to the claims). -/
def downloadLoop (env : TransferEnv) :
    Nat → Nat → Except FetchErr (TgFile × List Nat) × Nat
  | 0, i => (.error .transferFailed, i)
  | remaining + 1, i =>
    match env.attempt i with
    | .ok r => (.ok r, i + 1)
    | .error _ => downloadLoop env remaining (i + 1)

/-- `_download_with_retry(bot, file_id)`. -/
def downloadWithRetry (env : TransferEnv) :
    Except FetchErr (TgFile × List Nat) × Nat :=
  downloadLoop env MAX_DOWNLOAD_RETRIES 0

/-- `_download_photo(bot, photo_sizes)`: size check on the largest variant
*before* any transfer; second component counts transfer attempts. -/
def downloadPhoto (env : TransferEnv) (photo_sizes : List PhotoSize) :
    Except FetchErr (Option MediaContent) × Nat :=
  if photo_sizes.isEmpty then (.ok none, 0)
  else
    let largest := photo_sizes.getLastD ⟨"", none⟩
    match checkFileSize largest.file_size PHOTO_MAX_BYTES "photo" with
    | some e => (.error e, 0)
    | none =>
      match downloadWithRetry env with
      | (.error e, n) => (.error e, n)
      | (.ok (tg_file, data), n) =>
        (.ok (some ⟨data,
          safeFilename (pyStrOr tg_file.file_path "photo.jpg") "photo.jpg",
          "image/jpeg"⟩), n)

/-- `_download_video(bot, video)`. -/
def downloadVideo (env : TransferEnv) (video : Video) :
    Except FetchErr (Option MediaContent) × Nat :=
  match checkFileSize video.file_size VIDEO_MAX_BYTES "video" with
  | some e => (.error e, 0)
  | none =>
    match downloadWithRetry env with
    | (.error e, n) => (.error e, n)
    | (.ok (tg_file, data), n) =>
      let fallback := safeFilename (pyStrOr tg_file.file_path "video.mp4") "video.mp4"
      let filename := pyStrOr video.file_name fallback
      (.ok (some ⟨data, filename, pyStrOr video.mime_type "video/mp4"⟩), n)

/-- `_download_video_note(bot, video_note)`. -/
def downloadVideoNote (env : TransferEnv) (vn : VideoNote) :
    Except FetchErr (Option MediaContent) × Nat :=
  match checkFileSize vn.file_size VIDEO_MAX_BYTES "video_note" with
  | some e => (.error e, 0)
  | none =>
    match downloadWithRetry env with
    | (.error e, n) => (.error e, n)
    | (.ok (tg_file, data), n) =>
      (.ok (some ⟨data,
        safeFilename (pyStrOr tg_file.file_path "video_note.mp4") "video_note.mp4",
        "video/mp4"⟩), n)

/-- `download_media(bot, message)`: dispatch on the first present
attachment kind (photo, then video, then video_note), else `None`. -/
def downloadMedia (env : TransferEnv) (message : Msg) :
    Except FetchErr (Option MediaContent) × Nat :=
  if !message.photo.isEmpty then downloadPhoto env message.photo
  else match message.video with
  | some v => downloadVideo env v
  | none =>
    match message.video_note with
    | some vn => downloadVideoNote env vn
    | none => (.ok none, 0)

/-! ## Sync orchestrator (`src/bot/handlers.py`)

`handle_media` as a pure state transformer over the store, parameterised
by oracles for the downstream effects, returning the new store state and
the trace of outbound calls (album resolution, upload, mark-processed).
-/

/-- The fields of `update.effective_chat` consumed by the handlers. -/
structure ChatM where
  id : Int
  type : String
  title : Option String
deriving DecidableEq

/-- The fields of `update.message` consumed by the handlers (the media
payload reaches the handler only through the fetch oracle). -/
structure MsgM where
  id : Int
deriving DecidableEq

/-- A Telegram update: message and effective chat, each possibly absent. -/
structure UpdateM where
  message : Option MsgM
  effective_chat : Option ChatM
deriving DecidableEq

/-- The configuration consumed by the handlers: `ALLOWED_GROUP_IDS`
(empty = allow all). -/
structure Cfg where
  allowed_group_ids : List Int
deriving DecidableEq

/-- A remote-client failure as seen by the orchestrator: a
`GooglePhotosError` (carrying its optional status and body) or any other
exception. -/
inductive RemoteErr where
  | gp (status : Option Nat) (body : Option String)
  | other
deriving DecidableEq

/-- Outcomes of the effectful collaborators for one inbound event:
the fetch result, the album resolution per title, and the upload result. -/
structure HandlerEnv where
  download : Except FetchErr (Option MediaContent)
  getOrCreateAlbum : String → Except RemoteErr String
  upload : Except RemoteErr Unit

/-- Outbound calls the orchestrator can make, in order. -/
inductive Call where
  | getOrCreateAlbum (title : String)
  | uploadMedia (data : List Nat) (filename mime_type album_id : String)
  | markProcessed (chat_id message_id : Int)
  | getAlbumProductUrl (album_id : String)
deriving DecidableEq

/-- Result of a `handle_media` run: final store state and call trace. -/
structure HandleResult where
  db : DB
  calls : List Call
deriving DecidableEq

/-- The effective display title:
`chat.title or f"Chat_{chat_id}"`, re-defaulted when whitespace-only. -/
def effectiveTitle (chat : ChatM) : String :=
  let t := pyStrOr chat.title ("Chat_" ++ toString chat.id)
  if pyStrip t = "" then "Chat_" ++ toString chat.id else t

/-- Steps 7–8 of the orchestrator: call `upload_media`; on success, mark
processed; on `GooglePhotosError` or any other failure, abort. -/
def uploadPhase (env : HandlerEnv) (db : DB) (pre : List Call)
    (content : MediaContent) (album_id : String) (chat_id message_id : Int) :
    HandleResult :=
  let calls := pre ++
    [Call.uploadMedia content.data content.filename content.mime_type album_id]
  match env.upload with
  | .error _ => ⟨db, calls⟩
  | .ok _ =>
    ⟨db.mark_processed chat_id message_id,
     calls ++ [Call.markProcessed chat_id message_id]⟩

/-- Step 6 on a cache miss: `get_or_create_album` then `set_album_id`,
then the upload phase; a resolution failure aborts (the handler's
`except` around the whole block). -/
def resolveAlbumAndUpload (env : HandlerEnv) (db : DB) (chat_title : String)
    (content : MediaContent) (chat_id message_id : Int) : HandleResult :=
  match env.getOrCreateAlbum chat_title with
  | .error _ => ⟨db, [Call.getOrCreateAlbum chat_title]⟩
  | .ok album_id =>
    uploadPhase env (db.set_album_id chat_title album_id)
      [Call.getOrCreateAlbum chat_title] content album_id chat_id message_id

/-- Step 4 of the orchestrator (lines 58–65 of `handlers.py`):
`if stored_title and stored_title != chat_title:` — when a stored title
exists, is truthy (non-empty), and differs from the effective title,
delete the album cache entry of the *old* title. A `None` or
empty-string stored title is falsy in Python, so no delete happens. -/
def renameStep (db : DB) (chat_id : Int) (chat_title : String) : DB :=
  match db.get_chat_title chat_id with
  | some stored =>
    if stored ≠ "" ∧ stored ≠ chat_title then db.delete_album_cache stored
    else db
  | none => db

/-- Steps 5–8 of the orchestrator, on the store state `db2` left by the
rename bookkeeping: fetch (abort on failure or absent media), album
resolution (the cached id is re-resolved when missing or falsy-empty),
upload, mark-processed. -/
def pipelineFetch (env : HandlerEnv) (chat_id message_id : Int)
    (chat_title : String) (db2 : DB) : HandleResult :=
  match env.download with
  | .error _ => ⟨db2, []⟩
  | .ok none => ⟨db2, []⟩
  | .ok (some content) =>
    match db2.get_album_id chat_title with
    | some cached =>
      if cached = "" then
        resolveAlbumAndUpload env db2 chat_title content chat_id message_id
      else uploadPhase env db2 [] content cached chat_id message_id
    | none =>
      resolveAlbumAndUpload env db2 chat_title content chat_id message_id

/-- Steps 4–8 of the orchestrator, after all gate checks passed: rename
detection (`delete_album_cache` of the old title when it differs) and
unconditional `set_chat_title`, then fetch/resolve/upload/mark. -/
def pipeline (env : HandlerEnv) (chat_id message_id : Int)
    (chat_title : String) (db : DB) : HandleResult :=
  pipelineFetch env chat_id message_id chat_title
    ((renameStep db chat_id chat_title).set_chat_title chat_id chat_title)

/-- `handle_media(update, context)`, following the source order: presence
checks, group-type check, allow-list check, dedup check, then the
effective-title computation and the processing pipeline. -/
def handleMedia (env : HandlerEnv) (cfg : Cfg) (update : UpdateM) (db : DB) :
    HandleResult :=
  match update.message, update.effective_chat with
  | some message, some chat =>
    if ¬(chat.type = "group" ∨ chat.type = "supergroup") then ⟨db, []⟩
    else if cfg.allowed_group_ids ≠ [] ∧ chat.id ∉ cfg.allowed_group_ids then
      ⟨db, []⟩
    else if db.is_processed chat.id message.id then ⟨db, []⟩
    else pipeline env chat.id message.id (effectiveTitle chat) db
  | _, _ => ⟨db, []⟩

/-- An event run that aborted without the durable success marker: the
processed table is untouched and no mark-processed call was made. -/
def abortsUnprocessed (db : DB) (r : HandleResult) : Prop :=
  r.db.processed = db.processed ∧ ∀ c m, Call.markProcessed c m ∉ r.calls

/-! ## Link command handler (absent from `src/bot/handlers.py`) -/

/-- How the link-command handler replies: silently rejected, the explicit
"No album found" response, the album's product URL, or the explicit
"Could not retrieve" response on remote failure. -/
inductive LinkReply where
  | silent
  | noAlbum
  | albumUrl (url : String)
  | couldNotRetrieve
deriving DecidableEq

/-- The remote product-URL oracle consumed by the link-command handler. -/
structure LinkEnv where
  productUrl : String → Except RemoteErr String

/-- Result of a link-command run: the reply, the (unchanged) store state,
and the trace of remote calls. -/
structure LinkResult where
  reply : LinkReply
  db : DB
  calls : List Call
deriving DecidableEq

/-- Modelled from the spec: `handle_link_command` / `link_command_handler`
is imported by `src/bot/main.py` and exercised by
`src/tests/test_handlers.py` but its definition is absent from
`src/bot/handlers.py`. Per §4.4/§6/§8 of the spec and the tests: a
read-only query scoped to a group — after the same group-type and
allow-list gates as `handle_media`, look up the cached album id of the
group's current effective title; if uncached reply "No album found"
without any remote call; otherwise fetch the album's product URL and reply
with it, or reply "Could not retrieve" on remote failure. No store
mutation and no upload anywhere. -/
def handleLinkCommand (env : LinkEnv) (cfg : Cfg) (update : UpdateM)
    (db : DB) : LinkResult :=
  match update.message, update.effective_chat with
  | some _, some chat =>
    if ¬(chat.type = "group" ∨ chat.type = "supergroup") then ⟨.silent, db, []⟩
    else if cfg.allowed_group_ids ≠ [] ∧ chat.id ∉ cfg.allowed_group_ids then
      ⟨.silent, db, []⟩
    else
      match db.get_album_id (effectiveTitle chat) with
      | none => ⟨.noAlbum, db, []⟩
      | some aid =>
        match env.productUrl aid with
        | .ok url => ⟨.albumUrl url, db, [Call.getAlbumProductUrl aid]⟩
        | .error _ => ⟨.couldNotRetrieve, db, [Call.getAlbumProductUrl aid]⟩
  | _, _ => ⟨.silent, db, []⟩

/-! ### Store lemmas -/

theorem find?_filter_compat {α : Type} (l : List α) (p q : α → Bool)
    (h : ∀ x, p x = true → q x = true) : (l.filter q).find? p = l.find? p := by
  induction l with
  | nil => rfl
  | cons a l ih =>
    by_cases hq : q a = true
    · by_cases hp : p a = true
      · simp [List.filter_cons, hq, List.find?_cons, hp]
      · simp only [List.filter_cons, hq, if_true, List.find?_cons]
        simp only [Bool.not_eq_true] at hp
        simp [hp, ih]
    · have hp : p a = false := by
        cases hpa : p a
        · rfl
        · exact absurd (h a hpa) hq
      simp only [Bool.not_eq_true] at hq
      simp [List.filter_cons, hq, List.find?_cons, hp, ih]

theorem find?_filter_none_compat {α : Type} (l : List α) (p q : α → Bool)
    (h : ∀ x, q x = true → p x = false) : (l.filter q).find? p = none := by
  induction l with
  | nil => rfl
  | cons a l ih =>
    by_cases hq : q a = true
    · simp [List.filter_cons, hq, List.find?_cons, h a hq, ih]
    · simp only [Bool.not_eq_true] at hq
      simp [List.filter_cons, hq, ih]

theorem DB.is_processed_mark (db : DB) (c m : Int) :
    (db.mark_processed c m).is_processed c m = true := by
  unfold DB.mark_processed DB.is_processed
  split
  · assumption
  · simp [List.contains_cons]

theorem DB.mark_processed_idem (db : DB) (c m : Int) :
    (db.mark_processed c m).mark_processed c m = db.mark_processed c m := by
  unfold DB.mark_processed
  split
  · rfl
  · simp [List.contains_cons]

theorem DB.get_album_id_set_same (db : DB) (t a : String) :
    (db.set_album_id t a).get_album_id t = some a := by
  simp [DB.set_album_id, DB.get_album_id, List.find?]

theorem DB.get_album_id_set_other (db : DB) (t a t' : String) (h : t' ≠ t) :
    (db.set_album_id t a).get_album_id t' = db.get_album_id t' := by
  have hne : ((t, a).1 == t') = false := by
    simp only [beq_eq_false_iff_ne, ne_eq]
    exact fun he => h he.symm
  simp only [DB.set_album_id, DB.get_album_id, List.find?_cons, hne]
  rw [find?_filter_compat]
  intro x hx
  simp only [beq_iff_eq] at hx
  rw [hx]
  exact bne_iff_ne.mpr (fun he => h he)

theorem DB.get_album_id_delete_same (db : DB) (t : String) :
    (db.delete_album_cache t).get_album_id t = none := by
  simp only [DB.delete_album_cache, DB.get_album_id]
  rw [find?_filter_none_compat]
  · rfl
  · intro x hx
    simp only [bne_iff_ne, ne_eq] at hx
    simp [beq_eq_false_iff_ne, hx]

theorem DB.get_chat_title_set_same (db : DB) (g : Int) (t : String) :
    (db.set_chat_title g t).get_chat_title g = some t := by
  simp [DB.set_chat_title, DB.get_chat_title, List.find?]

/-! ### Retry-loop lemmas -/

/-- One loop iteration on a retryably-failing attempt: the delay doubles
(capped at 120) before the next sleep. The 30-second floor of the
status branch is absorbed because the delay never drops below 30. -/
theorem retryLoop_retryable_step (o : Nat → AttemptOutcome)
    (tok : Nat → String) (extra : List (String × String))
    (rem i delay : Nat) (lastExc : Option ReqError) (sleeps : List Nat)
    (sent : List (List (String × String)))
    (hr : retryableOutcome (o i) = true)
    (hd : MIN_RETRY_DELAY_SEC ≤ delay) :
    ∃ exc, retryLoop o tok extra (rem + 1) i delay lastExc sleeps sent =
      retryLoop o tok extra rem (i + 1) (min (delay * 2) 120) (some exc)
        (if 0 < i then sleeps ++ [delay] else sleeps)
        (sent ++ [mergeHeaders (authHeaders (tok i)) extra]) := by
  cases ho : o i with
  | transport => exact ⟨.transportErr, by simp [retryLoop, ho]⟩
  | status c b =>
    simp only [retryableOutcome, ho] at hr
    refine ⟨.gpError c b, ?_⟩
    simp only [retryLoop, ho, hr, if_true]
    rw [Nat.max_eq_left hd]

/-- The attempt trace never shrinks. -/
theorem retryLoop_headers_length_le (o : Nat → AttemptOutcome)
    (tok : Nat → String) (extra : List (String × String)) :
    ∀ rem i delay lastExc sleeps sent, sent.length ≤
      (retryLoop o tok extra rem i delay lastExc sleeps sent).headers.length := by
  intro rem
  induction rem with
  | zero => intro i delay lastExc sleeps sent; simp [retryLoop]
  | succ n ih =>
    intro i delay lastExc sleeps sent
    cases ho : o i with
    | transport =>
      simp only [retryLoop, ho]
      calc sent.length ≤ (sent ++ [mergeHeaders (authHeaders (tok i)) extra]).length := by
            simp
        _ ≤ _ := ih _ _ _ _ _
    | status c b =>
      simp only [retryLoop, ho]
      split
      · calc sent.length ≤ (sent ++ [mergeHeaders (authHeaders (tok i)) extra]).length := by
              simp
          _ ≤ _ := ih _ _ _ _ _
      · split <;> simp

/-- Each loop entry with fuel left performs at least one more attempt. -/
theorem retryLoop_headers_length_succ (o : Nat → AttemptOutcome)
    (tok : Nat → String) (extra : List (String × String))
    (rem i delay : Nat) (lastExc : Option ReqError) (sleeps : List Nat)
    (sent : List (List (String × String))) :
    sent.length + 1 ≤
      (retryLoop o tok extra (rem + 1) i delay lastExc sleeps sent).headers.length := by
  cases ho : o i with
  | transport =>
    simp only [retryLoop, ho]
    calc sent.length + 1 = (sent ++ [mergeHeaders (authHeaders (tok i)) extra]).length := by
          simp
      _ ≤ _ := retryLoop_headers_length_le o tok extra _ _ _ _ _ _
  | status c b =>
    simp only [retryLoop, ho]
    split
    · calc sent.length + 1 = (sent ++ [mergeHeaders (authHeaders (tok i)) extra]).length := by
            simp
        _ ≤ _ := retryLoop_headers_length_le o tok extra _ _ _ _ _ _
    · split <;> simp

/-- After three retryably-failing attempts, a run of `_request_with_retry`
stands at attempt index 3 with delay 120, having slept 60 then 120. -/
theorem requestWithRetry_three_retryable (o : Nat → AttemptOutcome)
    (tok : Nat → String) (extra : List (String × String))
    (h : ∀ i, i < 3 → retryableOutcome (o i) = true) :
    ∃ exc, requestWithRetry o tok extra =
      retryLoop o tok extra 1 3 120 (some exc) [60, 120]
        [mergeHeaders (authHeaders (tok 0)) extra,
         mergeHeaders (authHeaders (tok 1)) extra,
         mergeHeaders (authHeaders (tok 2)) extra] := by
  obtain ⟨e0, s0⟩ := retryLoop_retryable_step o tok extra 3 0 30 none [] []
    (h 0 (by omega)) (by norm_num [MIN_RETRY_DELAY_SEC])
  obtain ⟨e1, s1⟩ := retryLoop_retryable_step o tok extra 2 1 60 (some e0) []
    [mergeHeaders (authHeaders (tok 0)) extra]
    (h 1 (by omega)) (by norm_num [MIN_RETRY_DELAY_SEC])
  obtain ⟨e2, s2⟩ := retryLoop_retryable_step o tok extra 1 2 120 (some e1) [60]
    [mergeHeaders (authHeaders (tok 0)) extra,
     mergeHeaders (authHeaders (tok 1)) extra]
    (h 2 (by omega)) (by norm_num [MIN_RETRY_DELAY_SEC])
  refine ⟨e2, ?_⟩
  have e : requestWithRetry o tok extra =
      retryLoop o tok extra (3 + 1) 0 30 none [] [] := rfl
  rw [e, s0]
  norm_num at s1 ⊢
  rw [s1]
  norm_num at s2 ⊢
  rw [s2]

/-- With fuel for a single further attempt, the sleep of that attempt is
recorded whatever its outcome. -/
theorem retryLoop_one_sleeps (o : Nat → AttemptOutcome)
    (tok : Nat → String) (extra : List (String × String))
    (i delay : Nat) (lastExc : Option ReqError) (sleeps : List Nat)
    (sent : List (List (String × String))) (hi : 0 < i) :
    (retryLoop o tok extra 1 i delay lastExc sleeps sent).sleeps =
      sleeps ++ [delay] := by
  cases ho : o i with
  | transport => simp [retryLoop, ho, hi]
  | status c b =>
    simp only [retryLoop, ho, hi, if_true]
    split
    · simp [retryLoop]
    · split <;> simp

/-! ### Orchestrator frame lemmas -/

theorem DB.processed_set_chat_title (db : DB) (g : Int) (t : String) :
    (db.set_chat_title g t).processed = db.processed := rfl

theorem DB.processed_set_album_id (db : DB) (t a : String) :
    (db.set_album_id t a).processed = db.processed := rfl

theorem DB.processed_delete_album_cache (db : DB) (t : String) :
    (db.delete_album_cache t).processed = db.processed := rfl

theorem renameStep_processed (db : DB) (cid : Int) (t : String) :
    (renameStep db cid t).processed = db.processed := by
  unfold renameStep
  split
  · split <;> rfl
  · rfl

theorem renameStep_chatTitles (db : DB) (cid : Int) (t : String) :
    (renameStep db cid t).chatTitles = db.chatTitles := by
  unfold renameStep
  split
  · split <;> rfl
  · rfl

theorem uploadPhase_error (env : HandlerEnv) (db : DB) (pre : List Call)
    (content : MediaContent) (aid : String) (cid mid : Int) (e : RemoteErr)
    (hu : env.upload = .error e) :
    uploadPhase env db pre content aid cid mid =
      ⟨db, pre ++ [Call.uploadMedia content.data content.filename
        content.mime_type aid]⟩ := by
  unfold uploadPhase
  rw [hu]

theorem uploadPhase_ok (env : HandlerEnv) (db : DB) (pre : List Call)
    (content : MediaContent) (aid : String) (cid mid : Int)
    (hu : env.upload = .ok ()) :
    uploadPhase env db pre content aid cid mid =
      ⟨db.mark_processed cid mid,
       (pre ++ [Call.uploadMedia content.data content.filename
         content.mime_type aid]) ++ [Call.markProcessed cid mid]⟩ := by
  unfold uploadPhase
  rw [hu]

theorem uploadPhase_mark_imp (env : HandlerEnv) (db : DB) (pre : List Call)
    (content : MediaContent) (aid : String) (cid mid c m : Int)
    (hpre : ∀ c' m', Call.markProcessed c' m' ∉ pre) :
    Call.markProcessed c m ∈ (uploadPhase env db pre content aid cid mid).calls →
      env.upload = .ok () ∧
      ∃ d f mt a, Call.uploadMedia d f mt a ∈
        (uploadPhase env db pre content aid cid mid).calls := by
  cases hu : env.upload with
  | error e =>
    rw [uploadPhase_error env db pre content aid cid mid e hu]
    intro hmem
    simp only [List.mem_append, List.mem_singleton] at hmem
    rcases hmem with h | h
    · exact absurd h (hpre c m)
    · cases h
  | ok u =>
    cases u
    rw [uploadPhase_ok env db pre content aid cid mid hu]
    intro _
    refine ⟨rfl, content.data, content.filename, content.mime_type, aid, ?_⟩
    simp

theorem resolveAlbum_mark_imp (env : HandlerEnv) (db : DB) (t : String)
    (content : MediaContent) (cid mid c m : Int) :
    Call.markProcessed c m ∈
        (resolveAlbumAndUpload env db t content cid mid).calls →
      env.upload = .ok () ∧
      ∃ d f mt a, Call.uploadMedia d f mt a ∈
        (resolveAlbumAndUpload env db t content cid mid).calls := by
  unfold resolveAlbumAndUpload
  cases ha : env.getOrCreateAlbum t with
  | error e =>
    intro hmem
    simp at hmem
  | ok aid =>
    exact uploadPhase_mark_imp env _ _ content aid cid mid c m (by simp)

theorem uploadPhase_abort (env : HandlerEnv) (db base : DB) (pre : List Call)
    (content : MediaContent) (aid : String) (cid mid : Int) (e : RemoteErr)
    (hu : env.upload = .error e) (hdb : db.processed = base.processed)
    (hpre : ∀ c' m', Call.markProcessed c' m' ∉ pre) :
    abortsUnprocessed base (uploadPhase env db pre content aid cid mid) := by
  rw [uploadPhase_error env db pre content aid cid mid e hu]
  refine ⟨hdb, ?_⟩
  intro c m
  simp only [List.mem_append, List.mem_singleton]
  rintro (h | h)
  · exact hpre c m h
  · cases h

theorem resolveAlbum_abort (env : HandlerEnv) (db base : DB) (t : String)
    (content : MediaContent) (cid mid : Int) (e : RemoteErr)
    (hu : env.upload = .error e) (hdb : db.processed = base.processed) :
    abortsUnprocessed base (resolveAlbumAndUpload env db t content cid mid) := by
  unfold resolveAlbumAndUpload
  cases ha : env.getOrCreateAlbum t with
  | error e2 =>
    refine ⟨hdb, ?_⟩
    intro c m
    simp
  | ok aid =>
    exact uploadPhase_abort env _ base _ content aid cid mid e hu
      (by rw [DB.processed_set_album_id]; exact hdb) (by simp)

/-! ### Gate and pipeline case lemmas -/

theorem handleMedia_gate_reject (env : HandlerEnv) (cfg : Cfg)
    (u : UpdateM) (db : DB) :
    (u.message = none → handleMedia env cfg u db = ⟨db, []⟩) ∧
    (u.effective_chat = none → handleMedia env cfg u db = ⟨db, []⟩) ∧
    (∀ msg chat, u.message = some msg → u.effective_chat = some chat →
      (¬(chat.type = "group" ∨ chat.type = "supergroup") →
        handleMedia env cfg u db = ⟨db, []⟩) ∧
      (cfg.allowed_group_ids ≠ [] → chat.id ∉ cfg.allowed_group_ids →
        handleMedia env cfg u db = ⟨db, []⟩) ∧
      (db.is_processed chat.id msg.id = true →
        handleMedia env cfg u db = ⟨db, []⟩)) := by
  obtain ⟨omsg, ochat⟩ := u
  refine ⟨?_, ?_, ?_⟩
  · intro h
    cases h
    cases ochat <;> rfl
  · intro h
    cases h
    cases omsg <;> rfl
  · intro msg chat hm hc
    cases hm
    cases hc
    refine ⟨?_, ?_, ?_⟩
    · intro hty
      simp [handleMedia, hty]
    · intro hne hnin
      by_cases hty : chat.type = "group" ∨ chat.type = "supergroup"
      · simp [handleMedia, hty, hne, hnin]
      · simp [handleMedia, hty]
    · intro hproc
      by_cases hty : chat.type = "group" ∨ chat.type = "supergroup"
      · by_cases hallow : cfg.allowed_group_ids ≠ [] ∧
          chat.id ∉ cfg.allowed_group_ids
        · simp [handleMedia, hty, hallow]
        · simp [handleMedia, hty, hallow, hproc]
      · simp [handleMedia, hty]

theorem handleMedia_cases (env : HandlerEnv) (cfg : Cfg)
    (u : UpdateM) (db : DB) :
    handleMedia env cfg u db = ⟨db, []⟩ ∨
    ∃ msg chat, u.message = some msg ∧ u.effective_chat = some chat ∧
      db.is_processed chat.id msg.id = false ∧
      handleMedia env cfg u db =
        pipeline env chat.id msg.id (effectiveTitle chat) db := by
  obtain ⟨omsg, ochat⟩ := u
  rcases omsg with _ | msg
  · left
    cases ochat <;> rfl
  · rcases ochat with _ | chat
    · left
      rfl
    · by_cases hty : chat.type = "group" ∨ chat.type = "supergroup"
      · by_cases hallow : cfg.allowed_group_ids ≠ [] ∧
          chat.id ∉ cfg.allowed_group_ids
        · left
          simp [handleMedia, hty, hallow]
        · cases hproc : db.is_processed chat.id msg.id
          · right
            exact ⟨msg, chat, rfl, rfl, hproc,
              by simp [handleMedia, hty, hallow, hproc]⟩
          · left
            simp [handleMedia, hty, hallow, hproc]
      · left
        simp [handleMedia, hty]

theorem pipelineFetch_err (env : HandlerEnv) (cid mid : Int) (t : String)
    (db2 : DB) (e : FetchErr) (hdl : env.download = .error e) :
    pipelineFetch env cid mid t db2 = ⟨db2, []⟩ := by
  unfold pipelineFetch
  rw [hdl]

theorem pipelineFetch_no_media (env : HandlerEnv) (cid mid : Int)
    (t : String) (db2 : DB) (hdl : env.download = .ok none) :
    pipelineFetch env cid mid t db2 = ⟨db2, []⟩ := by
  unfold pipelineFetch
  rw [hdl]

theorem pipelineFetch_miss (env : HandlerEnv) (cid mid : Int) (t : String)
    (db2 : DB) (content : MediaContent)
    (hdl : env.download = .ok (some content))
    (hga : db2.get_album_id t = none) :
    pipelineFetch env cid mid t db2 =
      resolveAlbumAndUpload env db2 t content cid mid := by
  unfold pipelineFetch
  rw [hdl, hga]

theorem pipelineFetch_cached_empty (env : HandlerEnv) (cid mid : Int)
    (t : String) (db2 : DB) (content : MediaContent)
    (hdl : env.download = .ok (some content))
    (hga : db2.get_album_id t = some "") :
    pipelineFetch env cid mid t db2 =
      resolveAlbumAndUpload env db2 t content cid mid := by
  unfold pipelineFetch
  simp [hdl, hga]

theorem pipelineFetch_cached (env : HandlerEnv) (cid mid : Int) (t : String)
    (db2 : DB) (content : MediaContent) (cached : String)
    (hdl : env.download = .ok (some content))
    (hga : db2.get_album_id t = some cached) (hc : cached ≠ "") :
    pipelineFetch env cid mid t db2 =
      uploadPhase env db2 [] content cached cid mid := by
  unfold pipelineFetch
  simp [hdl, hga, hc]

theorem pipeline_processed_base (_env : HandlerEnv) (cid _mid : Int)
    (t : String) (db : DB) :
    ((renameStep db cid t).set_chat_title cid t).processed = db.processed := by
  rw [DB.processed_set_chat_title, renameStep_processed]

theorem abortsUnprocessed_nil (db : DB) (db2 : DB)
    (h : db2.processed = db.processed) :
    abortsUnprocessed db (⟨db2, []⟩ : HandleResult) := by
  refine ⟨h, ?_⟩
  intro c m
  simp

theorem pipelineFetch_mark_imp (env : HandlerEnv) (cid mid : Int)
    (t : String) (db2 : DB) (c m : Int) :
    Call.markProcessed c m ∈ (pipelineFetch env cid mid t db2).calls →
      env.upload = .ok () ∧
      ∃ d f mt a, Call.uploadMedia d f mt a ∈
        (pipelineFetch env cid mid t db2).calls := by
  cases hdl : env.download with
  | error e =>
    rw [pipelineFetch_err env cid mid t db2 e hdl]
    intro h
    simp at h
  | ok oc =>
    cases oc with
    | none =>
      rw [pipelineFetch_no_media env cid mid t db2 hdl]
      intro h
      simp at h
    | some content =>
      cases hga : db2.get_album_id t with
      | none =>
        rw [pipelineFetch_miss env cid mid t db2 content hdl hga]
        exact resolveAlbum_mark_imp env db2 t content cid mid c m
      | some cached =>
        by_cases hc : cached = ""
        · subst hc
          rw [pipelineFetch_cached_empty env cid mid t db2 content hdl hga]
          exact resolveAlbum_mark_imp env db2 t content cid mid c m
        · rw [pipelineFetch_cached env cid mid t db2 content cached hdl hga hc]
          exact uploadPhase_mark_imp env db2 [] content cached cid mid c m
            (by simp)

theorem pipeline_mark_imp (env : HandlerEnv) (cid mid : Int) (t : String)
    (db : DB) (c m : Int) :
    Call.markProcessed c m ∈ (pipeline env cid mid t db).calls →
      env.upload = .ok () ∧
      ∃ d f mt a, Call.uploadMedia d f mt a ∈
        (pipeline env cid mid t db).calls := by
  unfold pipeline
  exact pipelineFetch_mark_imp env cid mid t _ c m

theorem pipeline_abort_download_error (env : HandlerEnv) (cid mid : Int)
    (t : String) (db : DB) (e : FetchErr) (hdl : env.download = .error e) :
    abortsUnprocessed db (pipeline env cid mid t db) := by
  unfold pipeline
  rw [pipelineFetch_err env cid mid t _ e hdl]
  exact abortsUnprocessed_nil db _ (pipeline_processed_base env cid mid t db)

theorem pipeline_abort_no_media (env : HandlerEnv) (cid mid : Int)
    (t : String) (db : DB) (hdl : env.download = .ok none) :
    abortsUnprocessed db (pipeline env cid mid t db) := by
  unfold pipeline
  rw [pipelineFetch_no_media env cid mid t _ hdl]
  exact abortsUnprocessed_nil db _ (pipeline_processed_base env cid mid t db)

theorem uploadPhase_goc_mem (env : HandlerEnv) (db : DB) (pre : List Call)
    (content : MediaContent) (aid : String) (cid mid : Int) (t' : String) :
    Call.getOrCreateAlbum t' ∈
        (uploadPhase env db pre content aid cid mid).calls →
      Call.getOrCreateAlbum t' ∈ pre := by
  unfold uploadPhase
  cases env.upload with
  | error e =>
    intro h
    rcases List.mem_append.mp h with h | h
    · exact h
    · simp at h
  | ok u =>
    intro h
    rcases List.mem_append.mp h with h | h
    · rcases List.mem_append.mp h with h | h
      · exact h
      · simp at h
    · simp at h

theorem resolveAlbum_abort_album_error (env : HandlerEnv) (db2 base : DB)
    (t t' : String) (content : MediaContent) (cid mid : Int) (e : RemoteErr)
    (ha : env.getOrCreateAlbum t' = .error e)
    (hdb : db2.processed = base.processed)
    (hmem : Call.getOrCreateAlbum t' ∈
      (resolveAlbumAndUpload env db2 t content cid mid).calls) :
    abortsUnprocessed base (resolveAlbumAndUpload env db2 t content cid mid) := by
  unfold resolveAlbumAndUpload at hmem ⊢
  cases hres : env.getOrCreateAlbum t with
  | error e3 =>
    refine ⟨hdb, ?_⟩
    intro c m
    simp
  | ok aid =>
    simp only [hres] at hmem
    have ht : t' = t := by
      have hp := uploadPhase_goc_mem env (db2.set_album_id t aid)
        [Call.getOrCreateAlbum t] content aid cid mid t' hmem
      simp only [List.mem_singleton, Call.getOrCreateAlbum.injEq] at hp
      exact hp
    rw [ht] at ha
    rw [ha] at hres
    cases hres

theorem pipeline_abort_album_error (env : HandlerEnv) (cid mid : Int)
    (t t' : String) (db : DB) (e : RemoteErr)
    (ha : env.getOrCreateAlbum t' = .error e)
    (hmem : Call.getOrCreateAlbum t' ∈ (pipeline env cid mid t db).calls) :
    abortsUnprocessed db (pipeline env cid mid t db) := by
  unfold pipeline at hmem ⊢
  have hbase := pipeline_processed_base env cid mid t db
  cases hdl : env.download with
  | error e2 =>
    rw [pipelineFetch_err env cid mid t _ e2 hdl]
    exact abortsUnprocessed_nil db _ hbase
  | ok oc =>
    cases oc with
    | none =>
      rw [pipelineFetch_no_media env cid mid t _ hdl]
      exact abortsUnprocessed_nil db _ hbase
    | some content =>
      cases hga : ((renameStep db cid t).set_chat_title cid t).get_album_id t with
      | none =>
        rw [pipelineFetch_miss env cid mid t _ content hdl hga] at hmem ⊢
        exact resolveAlbum_abort_album_error env _ db t t' content cid mid e
          ha hbase hmem
      | some cached =>
        by_cases hc : cached = ""
        · subst hc
          rw [pipelineFetch_cached_empty env cid mid t _ content hdl hga]
            at hmem ⊢
          exact resolveAlbum_abort_album_error env _ db t t' content cid mid e
            ha hbase hmem
        · rw [pipelineFetch_cached env cid mid t _ content cached hdl hga hc]
            at hmem
          exfalso
          revert hmem
          unfold uploadPhase
          cases env.upload <;> simp

theorem pipeline_abort_upload_error (env : HandlerEnv) (cid mid : Int)
    (t : String) (db : DB) (e : RemoteErr) (hu : env.upload = .error e) :
    abortsUnprocessed db (pipeline env cid mid t db) := by
  unfold pipeline
  have hbase := pipeline_processed_base env cid mid t db
  cases hdl : env.download with
  | error e2 =>
    rw [pipelineFetch_err env cid mid t _ e2 hdl]
    exact abortsUnprocessed_nil db _ hbase
  | ok oc =>
    cases oc with
    | none =>
      rw [pipelineFetch_no_media env cid mid t _ hdl]
      exact abortsUnprocessed_nil db _ hbase
    | some content =>
      cases hga : ((renameStep db cid t).set_chat_title cid t).get_album_id t with
      | none =>
        rw [pipelineFetch_miss env cid mid t _ content hdl hga]
        exact resolveAlbum_abort env _ db t content cid mid e hu hbase
      | some cached =>
        by_cases hc : cached = ""
        · subst hc
          rw [pipelineFetch_cached_empty env cid mid t _ content hdl hga]
          exact resolveAlbum_abort env _ db t content cid mid e hu hbase
        · rw [pipelineFetch_cached env cid mid t _ content cached hdl hga hc]
          exact uploadPhase_abort env _ db [] content cached cid mid e hu hbase
            (by simp)

/-! ### Further store and orchestrator lemmas -/

theorem DB.get_album_id_delete_other (db : DB) (t t' : String) (h : t' ≠ t) :
    (db.delete_album_cache t).get_album_id t' = db.get_album_id t' := by
  simp only [DB.delete_album_cache, DB.get_album_id]
  rw [find?_filter_compat]
  intro x hx
  simp only [beq_iff_eq] at hx
  rw [hx]
  exact bne_iff_ne.mpr h

theorem DB.get_album_id_set_chat_title (db : DB) (g : Int) (t t' : String) :
    (db.set_chat_title g t).get_album_id t' = db.get_album_id t' := rfl

theorem DB.get_chat_title_set_album_id (db : DB) (t a : String) (g : Int) :
    (db.set_album_id t a).get_chat_title g = db.get_chat_title g := rfl

theorem DB.get_album_id_mark_processed (db : DB) (c m : Int) (t : String) :
    (db.mark_processed c m).get_album_id t = db.get_album_id t := by
  unfold DB.mark_processed
  split <;> rfl

theorem DB.get_chat_title_mark_processed (db : DB) (c m g : Int) :
    (db.mark_processed c m).get_chat_title g = db.get_chat_title g := by
  unfold DB.mark_processed
  split <;> rfl

theorem renameStep_rename (db : DB) (cid : Int) (told tnew : String)
    (hstored : db.get_chat_title cid = some told) (htold : told ≠ "")
    (hne : told ≠ tnew) :
    renameStep db cid tnew = db.delete_album_cache told := by
  unfold renameStep
  simp only [hstored]
  rw [if_pos ⟨htold, hne⟩]

theorem handleMedia_download_error_calls (env : HandlerEnv) (cfg : Cfg)
    (u : UpdateM) (db : DB) (e : FetchErr) (hdl : env.download = .error e) :
    (handleMedia env cfg u db).calls = [] := by
  rcases handleMedia_cases env cfg u db with h | ⟨msg, chat, _, _, _, h⟩
  · rw [h]
  · rw [h]
    unfold pipeline
    rw [pipelineFetch_err _ _ _ _ _ e hdl]

/-! ## C1 -/

/-- C1: `mark_processed` is called only after `upload_media` completed
successfully, and every error path of the orchestrator — non-group chat,
allow-list rejection, fetch failure (oversize included), no media present,
album-resolution failure, remote upload failure — returns without marking
the event processed. -/
theorem c1_mark_only_after_upload (env : HandlerEnv) (cfg : Cfg)
    (u : UpdateM) (db : DB) :
    (∀ c m, Call.markProcessed c m ∈ (handleMedia env cfg u db).calls →
      env.upload = .ok () ∧
      ∃ d f mt a, Call.uploadMedia d f mt a ∈ (handleMedia env cfg u db).calls) ∧
    (∀ chat, u.effective_chat = some chat →
      ¬(chat.type = "group" ∨ chat.type = "supergroup") →
      abortsUnprocessed db (handleMedia env cfg u db)) ∧
    (∀ chat, u.effective_chat = some chat → cfg.allowed_group_ids ≠ [] →
      chat.id ∉ cfg.allowed_group_ids →
      abortsUnprocessed db (handleMedia env cfg u db)) ∧
    (∀ e, env.download = .error e →
      abortsUnprocessed db (handleMedia env cfg u db)) ∧
    (env.download = .ok none →
      abortsUnprocessed db (handleMedia env cfg u db)) ∧
    (∀ t e, env.getOrCreateAlbum t = .error e →
      Call.getOrCreateAlbum t ∈ (handleMedia env cfg u db).calls →
      abortsUnprocessed db (handleMedia env cfg u db)) ∧
    (∀ e, env.upload = .error e →
      abortsUnprocessed db (handleMedia env cfg u db)) := by
  refine ⟨?_, ?_, ?_, ?_, ?_, ?_, ?_⟩
  · intro c m hmem
    rcases handleMedia_cases env cfg u db with h | ⟨msg, chat, _, _, _, h⟩
    · rw [h] at hmem
      simp at hmem
    · rw [h] at hmem ⊢
      exact pipeline_mark_imp env chat.id msg.id (effectiveTitle chat) db c m hmem
  · intro chat hc hty
    obtain ⟨omsg, _⟩ := u
    rcases omsg with _ | msg
    · rw [(handleMedia_gate_reject env cfg _ db).1 rfl]
      exact abortsUnprocessed_nil db db rfl
    · rw [((handleMedia_gate_reject env cfg _ db).2.2 msg chat rfl hc).1 hty]
      exact abortsUnprocessed_nil db db rfl
  · intro chat hc hne hnin
    obtain ⟨omsg, _⟩ := u
    rcases omsg with _ | msg
    · rw [(handleMedia_gate_reject env cfg _ db).1 rfl]
      exact abortsUnprocessed_nil db db rfl
    · rw [((handleMedia_gate_reject env cfg _ db).2.2 msg chat rfl hc).2.1 hne hnin]
      exact abortsUnprocessed_nil db db rfl
  · intro e hdl
    rcases handleMedia_cases env cfg u db with h | ⟨msg, chat, _, _, _, h⟩
    · rw [h]
      exact abortsUnprocessed_nil db db rfl
    · rw [h]
      exact pipeline_abort_download_error env chat.id msg.id _ db e hdl
  · intro hdl
    rcases handleMedia_cases env cfg u db with h | ⟨msg, chat, _, _, _, h⟩
    · rw [h]
      exact abortsUnprocessed_nil db db rfl
    · rw [h]
      exact pipeline_abort_no_media env chat.id msg.id _ db hdl
  · intro t e ha hmem
    rcases handleMedia_cases env cfg u db with h | ⟨msg, chat, _, _, _, h⟩
    · rw [h]
      exact abortsUnprocessed_nil db db rfl
    · rw [h] at hmem ⊢
      exact pipeline_abort_album_error env chat.id msg.id _ t db e ha hmem
  · intro e hu
    rcases handleMedia_cases env cfg u db with h | ⟨msg, chat, _, _, _, h⟩
    · rw [h]
      exact abortsUnprocessed_nil db db rfl
    · rw [h]
      exact pipeline_abort_upload_error env chat.id msg.id _ db e hu

/-- C1 witness: a failing upload at a concrete event leaves the processed
table untouched and the trace free of mark-processed calls. -/
theorem c1_mark_only_after_upload_witness :
    abortsUnprocessed DB.empty
      (handleMedia
        ⟨.ok (some ⟨[1], "p.jpg", "image/jpeg"⟩), fun _ => .ok "album_1",
          .error (.gp (some 500) none)⟩
        ⟨[]⟩ ⟨some ⟨7⟩, some ⟨-100, "supergroup", some "T"⟩⟩ DB.empty) :=
  (c1_mark_only_after_upload _ _ _ _).2.2.2.2.2.2 (.gp (some 500) none) rfl

/-! ## C2 -/

/-- C2 counterexample: the claim puts the waits before retries 1, 2, 3 at
30s, 60s, 120s. In the source the delay is doubled at the end of each
failed attempt, before the next sleep, so an all-transport-failure run
sleeps 60s, 120s, 120s, and the first retry after a 429 sleeps 60s, not
30s. -/
theorem c2_counterexample_sleep_sequence :
    (requestWithRetry (fun _ => AttemptOutcome.transport)
        (fun _ => "tok") []).sleeps = [60, 120, 120] ∧
    (requestWithRetry
        (fun n => if n = 0 then AttemptOutcome.status 429 "rate-limited"
                  else AttemptOutcome.status 200 "ok")
        (fun _ => "tok") []).sleeps = [60] ∧
    ([60, 120, 120] : List Nat) ≠ [30, 60, 120] ∧ (60 : Nat) ≠ 30 :=
  ⟨by decide, by decide, by decide, by decide⟩

/-- C2 amended: attempt 1 fires with no preceding sleep (a run whose first
three attempts fail retryably performs exactly three sleeps for its three
retries), the delay doubles after each failed attempt *before* the next
sleep and is capped at 120s, so the waits before retries 1, 2, 3 are 60s,
120s, 120s; every wait respects the 30-second rate-limit floor, also on
the first retry after a 429. -/
theorem c2_retry_backoff_sequence (o : Nat → AttemptOutcome)
    (tok : Nat → String) (extra : List (String × String))
    (h : ∀ i, i < 3 → retryableOutcome (o i) = true) :
    (requestWithRetry o tok extra).sleeps = [60, 120, 120] ∧
      ∀ d ∈ (requestWithRetry o tok extra).sleeps, MIN_RETRY_DELAY_SEC ≤ d := by
  obtain ⟨e, he⟩ := requestWithRetry_three_retryable o tok extra h
  have hs : (requestWithRetry o tok extra).sleeps = [60, 120, 120] := by
    rw [he, retryLoop_one_sleeps o tok extra 3 120 (some e) [60, 120] _ (by omega)]
    rfl
  refine ⟨hs, ?_⟩
  rw [hs]
  decide

/-- C2 witness: an all-503 run exhibits the amended backoff sequence. -/
theorem c2_retry_backoff_sequence_witness :
    (requestWithRetry (fun _ => AttemptOutcome.status 503 "unavailable")
        (fun _ => "tok") []).sleeps = [60, 120, 120] ∧
      ∀ d ∈ (requestWithRetry (fun _ => AttemptOutcome.status 503 "unavailable")
        (fun _ => "tok") []).sleeps, MIN_RETRY_DELAY_SEC ≤ d :=
  c2_retry_backoff_sequence _ _ _ (fun _ _ => by decide)

/-! ## C3 -/

/-- C3 counterexample: the claim as stated omits the state of the album
cache under the *new* title. Here group `-100` has stored title `"Old"`
and the cache maps `"Old"` to `"album_old"` — the claim's premise — but
`"New"` is also cached (`"album_b"`); processing an event titled `"New"`
then invokes the remote album lookup/create zero times, not exactly
once. -/
theorem c3_counterexample_new_title_cached :
    ((handleMedia
        ⟨.ok (some ⟨[1], "p.jpg", "image/jpeg"⟩), fun _ => .ok "fresh_id",
          .ok ()⟩
        ⟨[]⟩ ⟨some ⟨10⟩, some ⟨-100, "supergroup", some "New"⟩⟩
        ⟨[], [("Old", "album_old"), ("New", "album_b")],
          [(-100, "Old")]⟩).calls.count
      (Call.getOrCreateAlbum "New")) = 0 ∧ (0 : Nat) ≠ 1 :=
  ⟨by decide, by decide⟩

/-- C3 amended: under the additional hypotheses that the stored old title
is non-empty (Python truthiness at line 60 of `handlers.py` skips the
delete for a falsy stored title) and that no album id is cached under the
new title (and that the event actually reaches album resolution: it
passes the gates, its media downloads, and the remote resolution
succeeds), processing an event reported with the new title deletes the
album-cache entry of the old title, stores the new title for the group,
invokes the remote album lookup/create with the new title exactly once
(and with no other title), and caches its result under the new title —
whatever the upload outcome. -/
theorem c3_rename_invalidation (env : HandlerEnv) (cfg : Cfg) (db : DB)
    (g m : Int) (ty told tnew aold rid : String) (content : MediaContent)
    (hty : ty = "group" ∨ ty = "supergroup")
    (hallow : ¬(cfg.allowed_group_ids ≠ [] ∧ g ∉ cfg.allowed_group_ids))
    (hproc : db.is_processed g m = false)
    (hstored : db.get_chat_title g = some told)
    (_hold : db.get_album_id told = some aold)
    (hnew : db.get_album_id tnew = none)
    (htold : told ≠ "")
    (hne : told ≠ tnew)
    (ht1 : tnew ≠ "") (ht2 : pyStrip tnew ≠ "")
    (hdl : env.download = .ok (some content))
    (hres : env.getOrCreateAlbum tnew = .ok rid) :
    (handleMedia env cfg ⟨some ⟨m⟩, some ⟨g, ty, some tnew⟩⟩ db).db.get_album_id
        told = none ∧
    (handleMedia env cfg ⟨some ⟨m⟩, some ⟨g, ty, some tnew⟩⟩ db).db.get_chat_title
        g = some tnew ∧
    ((handleMedia env cfg ⟨some ⟨m⟩, some ⟨g, ty, some tnew⟩⟩ db).calls.count
        (Call.getOrCreateAlbum tnew)) = 1 ∧
    (∀ t', Call.getOrCreateAlbum t' ∈
        (handleMedia env cfg ⟨some ⟨m⟩, some ⟨g, ty, some tnew⟩⟩ db).calls →
      t' = tnew) ∧
    (handleMedia env cfg ⟨some ⟨m⟩, some ⟨g, ty, some tnew⟩⟩ db).db.get_album_id
        tnew = some rid := by
  have hEt : effectiveTitle ⟨g, ty, some tnew⟩ = tnew := by
    simp [effectiveTitle, pyStrOr, ht1, ht2]
  have hgate : handleMedia env cfg ⟨some ⟨m⟩, some ⟨g, ty, some tnew⟩⟩ db =
      pipeline env g m tnew db := by
    simp [handleMedia, hty, hallow, hproc, hEt]
  have hrs : renameStep db g tnew = db.delete_album_cache told :=
    renameStep_rename db g told tnew hstored htold hne
  have hga2 : ((renameStep db g tnew).set_chat_title g tnew).get_album_id
      tnew = none := by
    rw [DB.get_album_id_set_chat_title, hrs,
      DB.get_album_id_delete_other db told tnew (Ne.symm hne), hnew]
  rw [hgate]
  unfold pipeline
  rw [pipelineFetch_miss env g m tnew _ content hdl hga2]
  unfold resolveAlbumAndUpload
  simp only [hres]
  have halb_old : ∀ dbx : DB,
      ((((renameStep db g tnew).set_chat_title g tnew).set_album_id tnew
        rid)).get_album_id told = none := by
    intro _
    rw [DB.get_album_id_set_other _ tnew rid told hne,
      DB.get_album_id_set_chat_title, hrs, DB.get_album_id_delete_same]
  cases hu : env.upload with
  | error e =>
    rw [uploadPhase_error env _ _ content rid g m e hu]
    refine ⟨halb_old db, ?_, ?_, ?_, ?_⟩
    · rw [DB.get_chat_title_set_album_id, DB.get_chat_title_set_same]
    · simp
    · intro t' ht'
      simp at ht'
      exact ht'
    · rw [DB.get_album_id_set_same]
  | ok u =>
    cases u
    rw [uploadPhase_ok env _ _ content rid g m hu]
    refine ⟨?_, ?_, ?_, ?_, ?_⟩
    · rw [DB.get_album_id_mark_processed]
      exact halb_old db
    · rw [DB.get_chat_title_mark_processed, DB.get_chat_title_set_album_id,
        DB.get_chat_title_set_same]
    · simp
    · intro t' ht'
      simp at ht'
      exact ht'
    · rw [DB.get_album_id_mark_processed, DB.get_album_id_set_same]

/-- C3 witness: the amended rename scenario at the concrete state of the
spec (stored title `"Old"`, cached album `"album_old"`, event title
`"New"`). -/
theorem c3_rename_invalidation_witness :
    (handleMedia
        ⟨.ok (some ⟨[1], "p.jpg", "image/jpeg"⟩), fun _ => .ok "album_new",
          .ok ()⟩
        ⟨[]⟩ ⟨some ⟨10⟩, some ⟨-100, "supergroup", some "New"⟩⟩
        ⟨[], [("Old", "album_old")], [(-100, "Old")]⟩).db.get_album_id
      "Old" = none ∧
    (handleMedia
        ⟨.ok (some ⟨[1], "p.jpg", "image/jpeg"⟩), fun _ => .ok "album_new",
          .ok ()⟩
        ⟨[]⟩ ⟨some ⟨10⟩, some ⟨-100, "supergroup", some "New"⟩⟩
        ⟨[], [("Old", "album_old")], [(-100, "Old")]⟩).db.get_chat_title
      (-100) = some "New" ∧
    ((handleMedia
        ⟨.ok (some ⟨[1], "p.jpg", "image/jpeg"⟩), fun _ => .ok "album_new",
          .ok ()⟩
        ⟨[]⟩ ⟨some ⟨10⟩, some ⟨-100, "supergroup", some "New"⟩⟩
        ⟨[], [("Old", "album_old")], [(-100, "Old")]⟩).calls.count
      (Call.getOrCreateAlbum "New")) = 1 ∧
    (∀ t', Call.getOrCreateAlbum t' ∈
        (handleMedia
          ⟨.ok (some ⟨[1], "p.jpg", "image/jpeg"⟩), fun _ => .ok "album_new",
            .ok ()⟩
          ⟨[]⟩ ⟨some ⟨10⟩, some ⟨-100, "supergroup", some "New"⟩⟩
          ⟨[], [("Old", "album_old")], [(-100, "Old")]⟩).calls →
      t' = "New") ∧
    (handleMedia
        ⟨.ok (some ⟨[1], "p.jpg", "image/jpeg"⟩), fun _ => .ok "album_new",
          .ok ()⟩
        ⟨[]⟩ ⟨some ⟨10⟩, some ⟨-100, "supergroup", some "New"⟩⟩
        ⟨[], [("Old", "album_old")], [(-100, "Old")]⟩).db.get_album_id
      "New" = some "album_new" :=
  c3_rename_invalidation _ ⟨[]⟩ ⟨[], [("Old", "album_old")], [(-100, "Old")]⟩
    (-100) 10 "supergroup" "Old" "New" "album_old" "album_new"
    ⟨[1], "p.jpg", "image/jpeg"⟩
    (Or.inr rfl) (by decide) (by decide) (by decide) (by decide) (by decide)
    (by decide) (by decide) (by decide) (by decide) rfl rfl

/-! ## C4 -/

/-- C4: for all integers `g` and `m`, after `mark_processed(g, m)` the pair
reads back as processed, and a second `mark_processed(g, m)` leaves the
store state unchanged. The operation is a total function (the embedding of
`INSERT OR IGNORE`), so the duplicate call also cannot raise. -/
theorem c4_mark_processed_idempotent (db : DB) (g m : Int) :
    (db.mark_processed g m).is_processed g m = true ∧
      (db.mark_processed g m).mark_processed g m = db.mark_processed g m :=
  ⟨DB.is_processed_mark db g m, DB.mark_processed_idem db g m⟩

/-! ## C5 -/

/-- C5 counterexample: the claim says exhaustion raises the typed error
when an HTTP response was obtained at some attempt, and propagates the
transport error only when none ever was. Here the first attempt obtains an
HTTP 503 response, the remaining attempts fail at transport level, and the
run propagates the transport error (the source re-raises whatever the
*last* attempt stored), not a typed error carrying status 503. -/
theorem c5_counterexample_exhaustion :
    (requestWithRetry
        (fun n => if n = 0 then AttemptOutcome.status 503 "unavailable"
                  else AttemptOutcome.transport)
        (fun _ => "tok") []).result = .error .transportErr ∧
    ReqError.transportErr ≠ .gpError 503 "unavailable" :=
  ⟨rfl, by decide⟩

/-- C5 amended: the wrapper retries exactly on transport failures and on
statuses in {429, 500, 502, 503, 504}; any other non-2xx status fails the
call immediately with no retry and no sleep; a 2xx returns after a single
attempt; and on exhaustion the raised error is determined by the *last*
attempt — the typed error with that attempt's status and body if it was a
retryable HTTP response, or the transport error if it failed at transport
level (even when earlier attempts did obtain HTTP responses). -/
theorem c5_retry_classification (o : Nat → AttemptOutcome)
    (tok : Nat → String) (extra : List (String × String)) :
    (∀ c b, o 0 = .status c b → RETRYABLE_STATUS_CODES.contains c = false →
        ¬(200 ≤ c ∧ c < 300) →
        (requestWithRetry o tok extra).result = .error (.httpStatusErr c b) ∧
        (requestWithRetry o tok extra).headers.length = 1 ∧
        (requestWithRetry o tok extra).sleeps = []) ∧
    (∀ c b, o 0 = .status c b → 200 ≤ c → c < 300 →
        (requestWithRetry o tok extra).result = .ok (c, b) ∧
        (requestWithRetry o tok extra).headers.length = 1) ∧
    (retryableOutcome (o 0) = true →
        2 ≤ (requestWithRetry o tok extra).headers.length) ∧
    ((∀ i, i < 4 → retryableOutcome (o i) = true) →
        (requestWithRetry o tok extra).headers.length = 4 ∧
        (o 3 = .transport →
          (requestWithRetry o tok extra).result = .error .transportErr) ∧
        (∀ c b, o 3 = .status c b →
          (requestWithRetry o tok extra).result = .error (.gpError c b))) := by
  have e : requestWithRetry o tok extra =
      retryLoop o tok extra (3 + 1) 0 30 none [] [] := rfl
  refine ⟨?_, ?_, ?_, ?_⟩
  · intro c b ho hcr h2
    rw [e]
    simp only [retryLoop, ho, hcr, Bool.false_eq_true, if_false]
    rw [if_neg h2]
    exact ⟨rfl, rfl, rfl⟩
  · intro c b ho h200 h300
    have hcr : RETRYABLE_STATUS_CODES.contains c = false := by
      simp only [RETRYABLE_STATUS_CODES, List.contains_eq_any_beq, List.any_cons,
        List.any_nil, Bool.or_false, Bool.or_eq_false_iff, beq_eq_false_iff_ne, ne_eq]
      omega
    rw [e]
    simp only [retryLoop, ho, hcr, Bool.false_eq_true, if_false]
    rw [if_pos ⟨h200, h300⟩]
    exact ⟨rfl, rfl⟩
  · intro hr
    obtain ⟨e0, s0⟩ := retryLoop_retryable_step o tok extra 3 0 30 none [] [] hr
      (by norm_num [MIN_RETRY_DELAY_SEC])
    rw [e, s0]
    norm_num
    calc 2 = [mergeHeaders (authHeaders (tok 0)) extra].length + 1 := by simp
      _ ≤ _ := retryLoop_headers_length_succ o tok extra _ _ _ _ _ _
  · intro h4
    obtain ⟨exc, he⟩ := requestWithRetry_three_retryable o tok extra
      (fun i hi => h4 i (by omega))
    have h3 := h4 3 (by omega)
    rw [he]
    cases ho3 : o 3 with
    | transport =>
      refine ⟨?_, fun _ => ?_, ?_⟩
      · simp [retryLoop, ho3]
      · simp [retryLoop, ho3]
      · intro c b hcb
        simp at hcb
    | status c3 b3 =>
      simp only [retryableOutcome, ho3] at h3
      have h3m : c3 ∈ RETRYABLE_STATUS_CODES := by simpa using h3
      refine ⟨?_, ?_, ?_⟩
      · simp [retryLoop, ho3, h3m]
      · intro ht
        simp at ht
      · intro c b hcb
        injection hcb with hc hb
        subst hc
        subst hb
        simp [retryLoop, ho3, h3m]

/-- C5 witness: instantiating the amended classification — a 404 first
response fails immediately; a 200 first response succeeds; an all-503 run
retries and exhausts with the typed 503 error. -/
theorem c5_retry_classification_witness :
    ((requestWithRetry (fun _ => AttemptOutcome.status 404 "not-found")
        (fun _ => "tok") []).result = .error (.httpStatusErr 404 "not-found") ∧
      (requestWithRetry (fun _ => AttemptOutcome.status 404 "not-found")
        (fun _ => "tok") []).headers.length = 1) ∧
    (requestWithRetry (fun _ => AttemptOutcome.status 200 "ok")
        (fun _ => "tok") []).result = .ok (200, "ok") ∧
    (requestWithRetry (fun _ => AttemptOutcome.status 503 "unavailable")
        (fun _ => "tok") []).result = .error (.gpError 503 "unavailable") := by
  refine ⟨⟨?_, ?_⟩, ?_, ?_⟩
  · exact ((c5_retry_classification (fun _ => AttemptOutcome.status 404 "not-found")
      (fun _ => "tok") []).1 404 "not-found" rfl (by decide) (by omega)).1
  · exact ((c5_retry_classification (fun _ => AttemptOutcome.status 404 "not-found")
      (fun _ => "tok") []).1 404 "not-found" rfl (by decide) (by omega)).2.1
  · exact ((c5_retry_classification (fun _ => AttemptOutcome.status 200 "ok")
      (fun _ => "tok") []).2.1 200 "ok" rfl (by omega) (by omega)).1
  · exact (((c5_retry_classification (fun _ => AttemptOutcome.status 503 "unavailable")
      (fun _ => "tok") []).2.2.2 (fun _ _ => by decide)).2.2 503 "unavailable" rfl)

/-! ## C6 -/

/-- C6: a declared size strictly above the kind ceiling (200 MB for
photos, 10 GB for videos and video notes) makes the fetch fail with the
size-limit error carrying the kind label, the observed size and the limit,
with zero transfer attempts (so before any byte transfer and before any
transfer retry); and when that error reaches the orchestrator the event
aborts unprocessed with no outbound call made (in particular the error is
not retried). -/
theorem c6_oversize_before_transfer (tenv : TransferEnv) (msg : Msg)
    (env : HandlerEnv) (cfg : Cfg) (u : UpdateM) (db : DB) :
    (∀ p s, msg.photo ≠ [] → msg.photo.getLast? = some p →
      p.file_size = some s → s > PHOTO_MAX_BYTES →
      downloadMedia tenv msg =
        (.error (.tooLarge "photo" s PHOTO_MAX_BYTES), 0)) ∧
    (∀ v s, msg.photo = [] → msg.video = some v → v.file_size = some s →
      s > VIDEO_MAX_BYTES →
      downloadMedia tenv msg =
        (.error (.tooLarge "video" s VIDEO_MAX_BYTES), 0)) ∧
    (∀ vn s, msg.photo = [] → msg.video = none → msg.video_note = some vn →
      vn.file_size = some s → s > VIDEO_MAX_BYTES →
      downloadMedia tenv msg =
        (.error (.tooLarge "video_note" s VIDEO_MAX_BYTES), 0)) ∧
    (∀ l s lim, env.download = .error (.tooLarge l s lim) →
      abortsUnprocessed db (handleMedia env cfg u db) ∧
      (handleMedia env cfg u db).calls = []) := by
  refine ⟨?_, ?_, ?_, ?_⟩
  · intro p s hne hp hsize hgt
    have hie : msg.photo.isEmpty = false := by
      simpa [List.isEmpty_iff] using hne
    simp [downloadMedia, downloadPhoto, checkFileSize, hie, hp, hsize, hgt]
  · intro v s hphoto hv hsize hgt
    have hie : msg.photo.isEmpty = true := by simp [hphoto]
    simp [downloadMedia, downloadVideo, checkFileSize, hie, hv, hsize, hgt]
  · intro vn s hphoto hv hvn hsize hgt
    have hie : msg.photo.isEmpty = true := by simp [hphoto]
    simp [downloadMedia, downloadVideoNote, checkFileSize, hie, hv, hvn,
      hsize, hgt]
  · intro l s lim hdl
    constructor
    · rcases handleMedia_cases env cfg u db with h | ⟨m2, c2, _, _, _, h⟩ <;> rw [h]
      · exact abortsUnprocessed_nil db db rfl
      · exact pipeline_abort_download_error env c2.id m2.id _ db _ hdl
    · exact handleMedia_download_error_calls env cfg u db _ hdl

/-- C6 witness: a 201-MB photo is rejected with zero transfer attempts,
and the orchestrator leaves the store unmarked with an empty trace. -/
theorem c6_oversize_before_transfer_witness :
    downloadMedia ⟨fun _ => .error ()⟩
        ⟨[⟨"f", some (PHOTO_MAX_BYTES + 1)⟩], none, none⟩ =
      (.error (.tooLarge "photo" (PHOTO_MAX_BYTES + 1) PHOTO_MAX_BYTES), 0) ∧
    abortsUnprocessed DB.empty
      (handleMedia
        ⟨.error (.tooLarge "photo" (PHOTO_MAX_BYTES + 1) PHOTO_MAX_BYTES),
          fun _ => .ok "a", .ok ()⟩
        ⟨[]⟩ ⟨some ⟨8⟩, some ⟨-100, "supergroup", some "T"⟩⟩ DB.empty) :=
  ⟨(c6_oversize_before_transfer ⟨fun _ => .error ()⟩
      ⟨[⟨"f", some (PHOTO_MAX_BYTES + 1)⟩], none, none⟩
      ⟨.error (.tooLarge "photo" (PHOTO_MAX_BYTES + 1) PHOTO_MAX_BYTES),
        fun _ => .ok "a", .ok ()⟩
      ⟨[]⟩ ⟨some ⟨8⟩, some ⟨-100, "supergroup", some "T"⟩⟩ DB.empty).1
      ⟨"f", some (PHOTO_MAX_BYTES + 1)⟩ (PHOTO_MAX_BYTES + 1)
      (by decide) rfl rfl (by norm_num [PHOTO_MAX_BYTES]),
   ((c6_oversize_before_transfer ⟨fun _ => .error ()⟩
      ⟨[⟨"f", some (PHOTO_MAX_BYTES + 1)⟩], none, none⟩
      ⟨.error (.tooLarge "photo" (PHOTO_MAX_BYTES + 1) PHOTO_MAX_BYTES),
        fun _ => .ok "a", .ok ()⟩
      ⟨[]⟩ ⟨some ⟨8⟩, some ⟨-100, "supergroup", some "T"⟩⟩ DB.empty).2.2.2
      "photo" (PHOTO_MAX_BYTES + 1) PHOTO_MAX_BYTES rfl).1⟩

/-! ## C7 -/

/-- C7: the link-query path is read-only — the store comes back unchanged
on every path; for a group whose effective title has no cached album id it
returns the explicit no-album reply without invoking the remote
product-URL call; for a cached title it returns the album's product
URL. -/
theorem c7_link_query_read_only (env : LinkEnv) (cfg : Cfg) (u : UpdateM)
    (db : DB) :
    (handleLinkCommand env cfg u db).db = db ∧
    (∀ msg chat, u.message = some msg → u.effective_chat = some chat →
      (chat.type = "group" ∨ chat.type = "supergroup") →
      ¬(cfg.allowed_group_ids ≠ [] ∧ chat.id ∉ cfg.allowed_group_ids) →
      (db.get_album_id (effectiveTitle chat) = none →
        (handleLinkCommand env cfg u db).reply = .noAlbum ∧
        (handleLinkCommand env cfg u db).calls = []) ∧
      (∀ aid url, db.get_album_id (effectiveTitle chat) = some aid →
        env.productUrl aid = .ok url →
        (handleLinkCommand env cfg u db).reply = .albumUrl url ∧
        (handleLinkCommand env cfg u db).calls = [Call.getAlbumProductUrl aid])) := by
  obtain ⟨omsg, ochat⟩ := u
  constructor
  · rcases omsg with _ | msg
    · cases ochat <;> rfl
    · rcases ochat with _ | chat
      · rfl
      · by_cases hty : chat.type = "group" ∨ chat.type = "supergroup"
        · by_cases hallow : cfg.allowed_group_ids ≠ [] ∧
            chat.id ∉ cfg.allowed_group_ids
          · simp [handleLinkCommand, hty, hallow]
          · cases hga : db.get_album_id (effectiveTitle chat) with
            | none => simp [handleLinkCommand, hty, hallow, hga]
            | some aid =>
              cases hp : env.productUrl aid <;>
                simp [handleLinkCommand, hty, hallow, hga, hp]
        · simp [handleLinkCommand, hty]
  · intro msg chat hm hc hty hallow
    cases hm
    cases hc
    constructor
    · intro hga
      constructor <;> simp [handleLinkCommand, hty, hallow, hga]
    · intro aid url hga hp
      constructor <;> simp [handleLinkCommand, hty, hallow, hga, hp]

/-- C7 witness: with nothing cached for the effective title the reply is
the explicit no-album response with no remote call; with a cached id the
reply carries the product URL. -/
theorem c7_link_query_read_only_witness :
    ((handleLinkCommand ⟨fun _ => .error .other⟩ ⟨[]⟩
        ⟨some ⟨1⟩, some ⟨-100, "supergroup", some "Empty"⟩⟩ DB.empty).reply =
      .noAlbum ∧
     (handleLinkCommand ⟨fun _ => .error .other⟩ ⟨[]⟩
        ⟨some ⟨1⟩, some ⟨-100, "supergroup", some "Empty"⟩⟩ DB.empty).calls =
      []) ∧
    (handleLinkCommand ⟨fun _ => .ok "https://photos.example/a1"⟩ ⟨[]⟩
        ⟨some ⟨1⟩, some ⟨-100, "supergroup", some "G"⟩⟩
        (DB.empty.set_album_id "G" "a1")).reply =
      .albumUrl "https://photos.example/a1" :=
  ⟨((c7_link_query_read_only ⟨fun _ => .error .other⟩ ⟨[]⟩
      ⟨some ⟨1⟩, some ⟨-100, "supergroup", some "Empty"⟩⟩ DB.empty).2
      ⟨1⟩ ⟨-100, "supergroup", some "Empty"⟩ rfl rfl (by decide) (by decide)).1
      (by decide),
   (((c7_link_query_read_only ⟨fun _ => .ok "https://photos.example/a1"⟩ ⟨[]⟩
      ⟨some ⟨1⟩, some ⟨-100, "supergroup", some "G"⟩⟩
      (DB.empty.set_album_id "G" "a1")).2
      ⟨1⟩ ⟨-100, "supergroup", some "G"⟩ rfl rfl (by decide) (by decide)).2
      "a1" "https://photos.example/a1" (by decide) rfl).1⟩

/-! ## C8 -/

/-- C8: the source merges `extra_headers` over the fresh Authorization
header with `dict.update`, so a caller-supplied `Authorization` key
*overrides* the freshly derived token — contradicting the function's own
docstring ("Authorization is always overwritten with a fresh token") and
the claim. At the failing input below, the header actually sent is the
caller's stale value, not `Bearer fresh`. -/
theorem c8_authorization_override_bug :
    (requestWithRetry (fun _ => AttemptOutcome.status 200 "ok")
        (fun _ => "fresh") [("Authorization", "Bearer stale")]).headers =
      [[("Authorization", "Bearer stale")]] ∧
    headerValue (mergeHeaders (authHeaders "fresh")
        [("Authorization", "Bearer stale")]) "Authorization" =
      some "Bearer stale" ∧
    ("Bearer stale" : String) ≠ "Bearer fresh" :=
  ⟨by decide, by decide, by decide⟩

/-! ## C9 -/

/-- C9: with no declared size the size-ceiling check is skipped entirely
and the download proceeds whatever the actual byte count; and the ceiling
is inclusive — a declared size exactly equal to the limit passes, only a
strictly greater one errors. -/
theorem c9_size_check_skip_and_inclusive (lim : Nat) (lbl : String)
    (tenv : TransferEnv) (msg : Msg) (p : PhotoSize) (tf : TgFile)
    (data : List Nat) :
    checkFileSize none lim lbl = none ∧
    checkFileSize (some lim) lim lbl = none ∧
    (∀ s, lim < s →
      checkFileSize (some s) lim lbl = some (.tooLarge lbl s lim)) ∧
    (msg.photo = [p] → p.file_size = none →
      tenv.attempt 0 = .ok (tf, data) →
      downloadMedia tenv msg =
        (.ok (some ⟨data,
          safeFilename (pyStrOr tf.file_path "photo.jpg") "photo.jpg",
          "image/jpeg"⟩), 1)) := by
  refine ⟨rfl, ?_, ?_, ?_⟩
  · simp [checkFileSize]
  · intro s hs
    simp [checkFileSize, hs]
  · intro hphoto hsize h0
    have hie : msg.photo.isEmpty = false := by simp [hphoto]
    have hlast : msg.photo.getLast? = some p := by simp [hphoto]
    simp [downloadMedia, downloadPhoto, checkFileSize, hie, hlast, hsize,
      downloadWithRetry, MAX_DOWNLOAD_RETRIES, downloadLoop, h0]

/-- C9 witness: a photo with no declared size and a 1-byte body downloads
in one attempt; the boundary and boundary-plus-one checks behave as
stated. -/
theorem c9_size_check_skip_and_inclusive_witness :
    checkFileSize none 5 "photo" = none ∧
    checkFileSize (some 5) 5 "photo" = none ∧
    (5 < 6 ∧ checkFileSize (some 6) 5 "photo" = some (.tooLarge "photo" 6 5)) ∧
    downloadMedia ⟨fun _ => .ok (⟨some "a/b.jpg"⟩, [7])⟩ ⟨[⟨"f", none⟩], none, none⟩ =
      (.ok (some ⟨[7],
        safeFilename (pyStrOr (some "a/b.jpg") "photo.jpg") "photo.jpg",
        "image/jpeg"⟩), 1) := by
  obtain ⟨h1, h2, h3, h4⟩ := c9_size_check_skip_and_inclusive 5 "photo"
    ⟨fun _ => .ok (⟨some "a/b.jpg"⟩, [7])⟩ ⟨[⟨"f", none⟩], none, none⟩
    ⟨"f", none⟩ ⟨some "a/b.jpg"⟩ [7]
  exact ⟨h1, h2, ⟨by decide, h3 6 (by decide)⟩, h4 rfl rfl rfl⟩

/-! ## C10 -/

/-- C10: every rejection before the rename step — missing message, missing
chat, non-group conversation kind, an allow-list configured without this
group, or an already-processed `(chat_id, message_id)` — returns with the
store (all three tables) completely unchanged and no outbound call made. -/
theorem c10_early_rejection_frame (env : HandlerEnv) (cfg : Cfg)
    (u : UpdateM) (db : DB) :
    (u.message = none → handleMedia env cfg u db = ⟨db, []⟩) ∧
    (u.effective_chat = none → handleMedia env cfg u db = ⟨db, []⟩) ∧
    (∀ msg chat, u.message = some msg → u.effective_chat = some chat →
      (¬(chat.type = "group" ∨ chat.type = "supergroup") →
        handleMedia env cfg u db = ⟨db, []⟩) ∧
      (cfg.allowed_group_ids ≠ [] → chat.id ∉ cfg.allowed_group_ids →
        handleMedia env cfg u db = ⟨db, []⟩) ∧
      (db.is_processed chat.id msg.id = true →
        handleMedia env cfg u db = ⟨db, []⟩)) :=
  handleMedia_gate_reject env cfg u db

/-- C10 witness: a private-chat event leaves a store with one of each
record untouched. -/
theorem c10_early_rejection_frame_witness :
    handleMedia
        ⟨.ok none, fun _ => .error .other, .error .other⟩ ⟨[]⟩
        ⟨some ⟨7⟩, some ⟨-100, "private", some "T"⟩⟩
        ⟨[(-5, 4)], [("A", "a")], [(-5, "A")]⟩ =
      ⟨⟨[(-5, 4)], [("A", "a")], [(-5, "A")]⟩, []⟩ :=
  ((c10_early_rejection_frame _ _ _ _).2.2 ⟨7⟩ ⟨-100, "private", some "T"⟩
    rfl rfl).1 (by decide)


end TelegramPhotos
